import Mathlib

/-!
Verification development for the wsjtx-srv repository (src/wsjtx_srv/wsjtx.py).

The file shallowly embeds the two cores of the program:
  * the binary telegram codec (Protocol_Element subclasses, the telegram
    schemas, `WSJTX_Telegram.from_bytes` / `as_bytes`), and
  * the worked-before / coloring decision engine and the UDP connector
    dispatch logic (`Worked_Before.lookup_color`, `UDP_Connector.handle`,
    `handle_status`, `handle_decode`, `parse_message`).

Python exceptions are modelled with `Except PyErr`; machine integers are
`Nat` / `Int` with explicit range checks where `struct.pack` checks them;
Python `bytes` values are `List Nat`; Python `str` values appearing inside
the codec are lists of Unicode code points (`List Nat`), while the
connector-level string logic uses Lean `String`.  Python doubles are kept
as their 8-byte big-endian bit patterns (the program never does float
arithmetic on them).
-/

/-- Decidable equality for `Except`, so that concrete runs of the embedded
code can be checked by `decide`. -/
instance {ε α : Type} [DecidableEq ε] [DecidableEq α] : DecidableEq (Except ε α) := fun a b =>
  match a, b with
  | Except.error e1, Except.error e2 =>
      if h : e1 = e2 then Decidable.isTrue (by rw [h])
      else Decidable.isFalse (by intro hc; cases hc; exact h rfl)
  | Except.error _, Except.ok _ => Decidable.isFalse (by intro hc; cases hc)
  | Except.ok _, Except.error _ => Decidable.isFalse (by intro hc; cases hc)
  | Except.ok v1, Except.ok v2 =>
      if h : v1 = v2 then Decidable.isTrue (by rw [h])
      else Decidable.isFalse (by intro hc; cases hc; exact h rfl)

/-- Kinds of Python exceptions the embedded code can raise. -/
inductive PyErr where
  | structError
  | nameError
  | attributeError
  | assertionError
  | valueError
  | unicodeError
  | keyError
  | indexError
deriving DecidableEq, Repr

/-- Big-endian encoding of `n` into `w` bytes (as `struct.pack` does for
unsigned formats, once the range check has passed). -/
def beBytes (w n : Nat) : List Nat :=
  (List.range w).map (fun i => n / 256 ^ (w - 1 - i) % 256)

/-- Big-endian value of a byte list (as `struct.unpack` computes it). -/
def beVal (bs : List Nat) : Nat :=
  bs.foldl (fun a b => a * 256 + b) 0

/-- Signed big-endian value of a byte list (two's complement, as the
`struct` formats `!l` and `!q` decode). -/
def sintOfBytes (bs : List Nat) : Int :=
  let n := beVal bs
  if n < 2 ^ (8 * bs.length - 1) then (n : Int) else (n : Int) - 2 ^ (8 * bs.length)

/-- Whether a byte is a UTF-8 continuation byte. -/
def isCont (b : Nat) : Bool := 0x80 ≤ b && b ≤ 0xBF

/-- UTF-8 encoding of one Unicode code point (Python `str.encode` for one
character of a well-formed string). -/
def utf8EncodeChar (c : Nat) : List Nat :=
  if c < 0x80 then [c]
  else if c < 0x800 then [0xC0 + c / 64, 0x80 + c % 64]
  else if c < 0x10000 then [0xE0 + c / 4096, 0x80 + c / 64 % 64, 0x80 + c % 64]
  else [0xF0 + c / 0x40000, 0x80 + c / 4096 % 64, 0x80 + c / 64 % 64, 0x80 + c % 64]

/-- Strict UTF-8 decoding to code points; `none` models the
`UnicodeDecodeError` that Python's `bytes.decode ('utf-8')` raises. -/
def utf8Decode : List Nat → Option (List Nat)
  | [] => some []
  | b :: r =>
    if b ≤ 0x7F then (utf8Decode r).map (b :: ·)
    else if 0xC2 ≤ b && b ≤ 0xDF then
      match r with
      | b2 :: r2 =>
        if isCont b2 then (utf8Decode r2).map (((b - 0xC0) * 64 + (b2 - 0x80)) :: ·)
        else none
      | [] => none
    else if 0xE0 ≤ b && b ≤ 0xEF then
      match r with
      | b2 :: b3 :: r3 =>
        let c := (b - 0xE0) * 4096 + (b2 - 0x80) * 64 + (b3 - 0x80)
        if isCont b2 && isCont b3 && decide (0x800 ≤ c) &&
           !(decide (0xD800 ≤ c) && decide (c ≤ 0xDFFF)) then
          (utf8Decode r3).map (c :: ·)
        else none
      | _ => none
    else if 0xF0 ≤ b && b ≤ 0xF4 then
      match r with
      | b2 :: b3 :: b4 :: r4 =>
        let c := (b - 0xF0) * 0x40000 + (b2 - 0x80) * 4096 + (b3 - 0x80) * 64 + (b4 - 0x80)
        if isCont b2 && isCont b3 && isCont b4 && decide (0x10000 ≤ c) && decide (c ≤ 0x10FFFF) then
          (utf8Decode r4).map (c :: ·)
        else none
      | _ => none
    else none

/-- QT color object as the program supports it (class `QColor`): spec 0 is
invalid, spec 1 is RGB; alpha defaults to full opacity. -/
structure QColor where
  spec : Nat
  alpha : Nat
  red : Nat
  green : Nat
  blue : Nat
deriving DecidableEq, Repr

/-- Constant `QColor.cmax`. -/
def cmax : Nat := 0xFFFF

/-- Constant `color_red = QColor (red = cmax)`. -/
def color_red : QColor := ⟨1, cmax, cmax, 0, 0⟩

/-- Constant `color_green = QColor (green = cmax)`. -/
def color_green : QColor := ⟨1, cmax, 0, cmax, 0⟩

/-- Constant `color_blue = QColor (blue = cmax)`. -/
def color_blue : QColor := ⟨1, cmax, 0, 0, cmax⟩

/-- Constant `color_white = QColor (cmax, cmax, cmax)`. -/
def color_white : QColor := ⟨1, cmax, cmax, cmax, cmax⟩

/-- Constant `color_black = QColor ()`. -/
def color_black : QColor := ⟨1, cmax, 0, 0, 0⟩

/-- Constant `color_cyan = QColor (0, 0xFFFF, 0xFFFF)`. -/
def color_cyan : QColor := ⟨1, cmax, 0, 0xFFFF, 0xFFFF⟩

/-- Constant `color_cyan1 = QColor (0x9999, 0xFFFF, 0xFFFF)`. -/
def color_cyan1 : QColor := ⟨1, cmax, 0x9999, 0xFFFF, 0xFFFF⟩

/-- Constant `color_pink = QColor (0xFFFF, 0, 0xFFFF)`. -/
def color_pink : QColor := ⟨1, cmax, 0xFFFF, 0, 0xFFFF⟩

/-- Constant `color_pink1 = QColor (0xFFFF, 0xAAAA, 0xFFFF)`. -/
def color_pink1 : QColor := ⟨1, cmax, 0xFFFF, 0xAAAA, 0xFFFF⟩

/-- Constant `color_invalid = QColor (spec = QColor.spec_invalid)`. -/
def color_invalid : QColor := ⟨0, cmax, 0, 0, 0⟩

/-- Field value of a telegram attribute, mirroring what the Python code
stores on the telegram object: plain ints, strings (as code-point lists,
`none` being Python `None`), optional quints, `QDateTime` objects and
`QColor` objects.  Doubles are kept as their 64-bit pattern. -/
inductive Val where
  | vuint (n : Nat)
  | vsint (z : Int)
  | vdbl (bits : Nat)
  | vstr (s : Option (List Nat))
  | voptq (v : Option Nat)
  | vdt (date : Int) (time : Nat) (timespec : Nat) (offset : Option Int)
  | vcol (c : QColor)
deriving DecidableEq, Repr

/-- Field format of a telegram schema entry, one constructor per shortcut
used in the source (`quint8/quint32/quint64` are `uint`, `qint32` is
`sint 4`, `qdouble` is `dbl`, `qutf8`, `opt_quint8` is `optq 1`,
`qdatetime`, `qcolor`). -/
inductive Fmt where
  | uint (w : Nat)
  | sint (w : Nat)
  | dbl
  | utf8
  | optq (w : Nat)
  | qdt
  | qcol
deriving DecidableEq, Repr

/-- Constructor `QDateTime.__init__`: first the assertion
`offset is None or timespec == 2`, then the guard that raises
`ValueError ("Offset required when timespec=2")` when `timespec == 2`
and the offset is present. -/
def QDateTime_init (date : Int) (time timespec : Nat) (offset : Option Int) :
    Except PyErr Val :=
  if ¬ (offset = none ∨ timespec = 2) then Except.error PyErr.assertionError
  else if timespec = 2 ∧ offset ≠ none then Except.error PyErr.valueError
  else Except.ok (Val.vdt date time timespec offset)

/-- Serialization of one field as `WSJTX_Telegram.as_bytes` performs it:
`struct.pack` for scalar formats (with its range checks),
`UTF8_String.serialize` (note the length prefix is the *character* count
while the payload is truncated to that many *bytes*),
`Optional_Quint.serialize` (which raises `AttributeError` for a present
value because `__init__` never sets `self.size`), `QDateTime.serialize`
and `QColor.serialize`.  A value whose shape does not fit the declared
format is a `struct.error`. -/
def serializeField : Fmt → Val → Except PyErr (List Nat)
  | Fmt.uint w, Val.vuint n =>
      if n < 2 ^ (8 * w) then Except.ok (beBytes w n) else Except.error PyErr.structError
  | Fmt.sint w, Val.vsint z =>
      if -(2 ^ (8 * w - 1) : Int) ≤ z ∧ z < 2 ^ (8 * w - 1) then
        Except.ok (beBytes w ((z % (2 ^ (8 * w) : Int)).toNat))
      else Except.error PyErr.structError
  | Fmt.dbl, Val.vdbl bits =>
      if bits < 2 ^ 64 then Except.ok (beBytes 8 bits) else Except.error PyErr.structError
  | Fmt.utf8, Val.vstr none => Except.ok [0xFF, 0xFF, 0xFF, 0xFF]
  | Fmt.utf8, Val.vstr (some cps) =>
      if cps.length < 2 ^ 32 then
        Except.ok (beBytes 4 cps.length ++ (cps.flatMap utf8EncodeChar).take cps.length)
      else Except.error PyErr.structError
  | Fmt.optq _, Val.voptq none => Except.ok []
  | Fmt.optq _, Val.voptq (some _) => Except.error PyErr.attributeError
  | Fmt.qdt, Val.vdt d t ts off =>
      if (-(2 ^ 63 : Int) ≤ d ∧ d < 2 ^ 63) ∧ t < 2 ^ 32 ∧ ts < 256 then
        match off with
        | none => Except.ok (beBytes 8 ((d % (2 ^ 64 : Int)).toNat) ++ beBytes 4 t ++ [ts])
        | some o =>
            if -(2 ^ 31 : Int) ≤ o ∧ o < 2 ^ 31 then
              Except.ok (beBytes 8 ((d % (2 ^ 64 : Int)).toNat) ++ beBytes 4 t ++ [ts] ++
                beBytes 4 ((o % (2 ^ 32 : Int)).toNat))
            else Except.error PyErr.structError
      else Except.error PyErr.structError
  | Fmt.qcol, Val.vcol c =>
      if c.spec < 256 ∧ c.alpha < 2 ^ 16 ∧ c.red < 2 ^ 16 ∧ c.green < 2 ^ 16 ∧ c.blue < 2 ^ 16 then
        Except.ok (beBytes 1 c.spec ++ beBytes 2 c.alpha ++ beBytes 2 c.red ++
          beBytes 2 c.green ++ beBytes 2 c.blue ++ beBytes 2 0)
      else Except.error PyErr.structError
  | _, _ => Except.error PyErr.structError

/-- Deserialization of one field from the remaining buffer, returning the
decoded value and the unconsumed rest, as `WSJTX_Telegram.deserialize`
advances through the buffer.  `Optional_Quint.deserialize` on a non-empty
buffer raises `NameError` (the classmethod refers to an undefined `self`);
`QDateTime.deserialize` with `timespec == 2` parses the offset and then
its constructor raises `ValueError`. -/
def deserializeField : Fmt → List Nat → Except PyErr (Val × List Nat)
  | Fmt.uint w, b =>
      if b.length < w then Except.error PyErr.structError
      else Except.ok (Val.vuint (beVal (b.take w)), b.drop w)
  | Fmt.sint w, b =>
      if b.length < w then Except.error PyErr.structError
      else Except.ok (Val.vsint (sintOfBytes (b.take w)), b.drop w)
  | Fmt.dbl, b =>
      if b.length < 8 then Except.error PyErr.structError
      else Except.ok (Val.vdbl (beVal (b.take 8)), b.drop 8)
  | Fmt.utf8, b =>
      if b.length < 4 then Except.error PyErr.structError
      else
        let len := beVal (b.take 4)
        if len = 0xFFFFFFFF then Except.ok (Val.vstr none, b.drop 4)
        else if (b.drop 4).length < len then Except.error PyErr.structError
        else
          match utf8Decode ((b.drop 4).take len) with
          | none => Except.error PyErr.unicodeError
          | some cps => Except.ok (Val.vstr (some cps), b.drop (4 + len))
  | Fmt.optq _, b =>
      if b = [] then Except.ok (Val.voptq none, b) else Except.error PyErr.nameError
  | Fmt.qdt, b =>
      if b.length < 13 then Except.error PyErr.structError
      else
        let d := sintOfBytes (b.take 8)
        let t := beVal ((b.drop 8).take 4)
        let ts := beVal ((b.drop 12).take 1)
        if ts = 2 then
          if (b.drop 13).length < 4 then Except.error PyErr.structError
          else do
            let v ← QDateTime_init d t ts (some (sintOfBytes ((b.drop 13).take 4)))
            Except.ok (v, b.drop 17)
        else do
          let v ← QDateTime_init d t ts none
          Except.ok (v, b.drop 13)
  | Fmt.qcol, b =>
      if b.length < 11 then Except.error PyErr.structError
      else
        Except.ok (Val.vcol ⟨beVal (b.take 1), beVal ((b.drop 1).take 2),
          beVal ((b.drop 3).take 2), beVal ((b.drop 5).take 2), beVal ((b.drop 7).take 2)⟩,
          b.drop 11)

/-- Serialization of a field list against a value list (the loop of
`as_bytes` over `self.format`). -/
def serializeFields : List Fmt → List Val → Except PyErr (List Nat)
  | [], [] => Except.ok []
  | f :: fs, v :: vs => do
      let bs ← serializeField f v
      let rest ← serializeFields fs vs
      Except.ok (bs ++ rest)
  | _, _ => Except.error PyErr.structError

/-- Deserialization of a field list from a buffer (the loop of
`deserialize` over `cls.format`), returning values and leftover bytes. -/
def deserializeFields : List Fmt → List Nat → Except PyErr (List Val × List Nat)
  | [], b => Except.ok ([], b)
  | f :: fs, b => do
      let (v, b2) ← deserializeField f b
      let (vs, b3) ← deserializeFields fs b2
      Except.ok (v :: vs, b3)

/-- Constant `WSJTX_Telegram.magic = 0xadbccbda`. -/
def magic : Nat := 0xadbccbda

/-- Constant `WSJTX_Telegram.schema_version_number = 3`. -/
def schema_version_number : Nat := 3

/-- Base schema shared by every telegram:
`magic, version_number, type, id` (`WSJTX_Telegram.format`). -/
def baseFormat : List Fmt := [Fmt.uint 4, Fmt.uint 4, Fmt.uint 4, Fmt.utf8]

/-- The type registry `WSJTX_Telegram.type_registry`, mapping a type tag to
the extension part of the registered subclass's `format` (the fields after
the base four), `none` for unregistered tags. -/
def schemaOf : Nat → Option (List Fmt)
  | 0 => some [Fmt.uint 4, Fmt.utf8, Fmt.utf8]
  | 1 => some [Fmt.uint 8, Fmt.utf8, Fmt.utf8, Fmt.utf8, Fmt.utf8, Fmt.uint 1, Fmt.uint 1,
      Fmt.uint 1, Fmt.uint 4, Fmt.uint 4, Fmt.utf8, Fmt.utf8, Fmt.utf8, Fmt.uint 1, Fmt.utf8,
      Fmt.uint 1, Fmt.uint 1, Fmt.uint 4, Fmt.uint 4, Fmt.utf8, Fmt.utf8]
  | 2 => some [Fmt.uint 1, Fmt.uint 4, Fmt.sint 4, Fmt.dbl, Fmt.uint 4, Fmt.utf8, Fmt.utf8,
      Fmt.uint 1, Fmt.uint 1]
  | 3 => some [Fmt.optq 1]
  | 4 => some [Fmt.uint 4, Fmt.sint 4, Fmt.dbl, Fmt.uint 4, Fmt.utf8, Fmt.utf8, Fmt.uint 1,
      Fmt.uint 1]
  | 5 => some [Fmt.qdt, Fmt.utf8, Fmt.utf8, Fmt.uint 8, Fmt.utf8, Fmt.utf8, Fmt.utf8,
      Fmt.utf8, Fmt.utf8, Fmt.utf8, Fmt.qdt, Fmt.utf8, Fmt.utf8, Fmt.utf8, Fmt.utf8,
      Fmt.utf8, Fmt.utf8]
  | 6 => some []
  | 7 => some []
  | 8 => some [Fmt.uint 1]
  | 9 => some [Fmt.utf8, Fmt.uint 1]
  | 10 => some [Fmt.uint 1, Fmt.uint 4, Fmt.sint 4, Fmt.dbl, Fmt.uint 8, Fmt.sint 4,
      Fmt.utf8, Fmt.utf8, Fmt.sint 4, Fmt.uint 1]
  | 11 => some [Fmt.utf8]
  | 12 => some [Fmt.utf8]
  | 13 => some [Fmt.utf8, Fmt.qcol, Fmt.qcol, Fmt.uint 1]
  | 14 => some [Fmt.utf8]
  | 15 => some [Fmt.utf8, Fmt.uint 4, Fmt.utf8, Fmt.uint 1, Fmt.uint 4, Fmt.uint 4,
      Fmt.utf8, Fmt.utf8, Fmt.uint 1]
  | _ => none

/-- Result of `WSJTX_Telegram.from_bytes`: either the base class instance
(the generic fallback for an unknown type tag, carrying only the base
fields) or a registered concrete telegram with its extension values. -/
inductive CTel where
  | generic (m v t : Nat) (id : Option (List Nat))
  | known (t : Nat) (m v : Nat) (id : Option (List Nat)) (vals : List Val)
deriving DecidableEq, Repr

/-- Deserialization of the four base fields (`WSJTX_Telegram.deserialize`
on the base `format`), returning them with the unconsumed buffer. -/
def deserializeBase (b : List Nat) :
    Except PyErr ((Nat × Nat × Nat × Option (List Nat)) × List Nat) := do
  let (v1, b1) ← deserializeField (Fmt.uint 4) b
  let (v2, b2) ← deserializeField (Fmt.uint 4) b1
  let (v3, b3) ← deserializeField (Fmt.uint 4) b2
  let (v4, b4) ← deserializeField Fmt.utf8 b3
  match v1, v2, v3, v4 with
  | Val.vuint m, Val.vuint v, Val.vuint t, Val.vstr id => Except.ok ((m, v, t, id), b4)
  | _, _, _, _ => Except.error PyErr.structError

/-- Assertions run by `WSJTX_Telegram.__init__`:
`params ['magic'] == self.magic` and
`self.schema_version_number >= params ['version_number']`. -/
def checkBaseAsserts (m v : Nat) : Except PyErr Unit :=
  if m ≠ magic then Except.error PyErr.assertionError
  else if ¬ v ≤ schema_version_number then Except.error PyErr.assertionError
  else Except.ok ()

/-- Classmethod `WSJTX_Telegram.from_bytes`: deserialize the base fields,
construct the base instance (running its assertions), then dispatch on the
type tag through the registry; an unregistered tag returns the base
(generic) instance, a registered one re-parses and builds the subclass. -/
def from_bytes (b : List Nat) : Except PyErr CTel :=
  match deserializeBase b with
  | Except.error e => Except.error e
  | Except.ok ((m, v, t, id), rest) =>
      match checkBaseAsserts m v with
      | Except.error e => Except.error e
      | Except.ok _ =>
          match schemaOf t with
          | none => Except.ok (CTel.generic m v t id)
          | some ext =>
              match deserializeFields ext rest with
              | Except.error e => Except.error e
              | Except.ok (vals, _) =>
                  match checkBaseAsserts m v with
                  | Except.error e => Except.error e
                  | Except.ok _ => Except.ok (CTel.known t m v id vals)

/-- Method `WSJTX_Telegram.as_bytes`: concatenate the serialized fields in
schema order, base fields first, then the extension fields of the concrete
kind. -/
def as_bytes : CTel → Except PyErr (List Nat)
  | CTel.generic m v t id =>
      serializeFields baseFormat [Val.vuint m, Val.vuint v, Val.vuint t, Val.vstr id]
  | CTel.known t m v id vals =>
      match schemaOf t with
      | none => Except.error PyErr.structError
      | some ext =>
          serializeFields (baseFormat ++ ext)
            ([Val.vuint m, Val.vuint v, Val.vuint t, Val.vstr id] ++ vals)

/-- The `while 1` loop of `main` restricted to the decode step of
`UDP_Connector.receive`: each datagram is decoded in turn and there is no
exception handler anywhere on the path, so the first raising datagram
aborts the whole loop.  Returns how many datagrams were processed. -/
def serveLoop : List (List Nat) → Except PyErr Nat
  | [] => Except.ok 0
  | d :: ds => do
      let _ ← from_bytes d
      let n ← serveLoop ds
      Except.ok (n + 1)

/-- Worked-before table (class `WBF`): a per-band mapping from a key
(callsign or DXCC entity code) to the truthiness of the stored record
(`add_item` stores `1` for entity codes and the ADIF record for calls);
with `always_match` set, `lookup` pretends nothing was ever worked. -/
structure WBF where
  always_match : Bool
  wbf : String → Option Bool

/-- Method `WBF.lookup`. -/
def WBF.lookup (w : WBF) (item : String) : Option Bool :=
  if w.always_match then none else w.wbf item

/-- Python truthiness of a `lookup` result (`None` and falsy records are
false). -/
def truthy (o : Option Bool) : Bool := o.getD false

/-- Color pair `Worked_Before.color_wbf` (already worked: no highlight). -/
def color_wbf : QColor × QColor := (color_invalid, color_invalid)

/-- Color pair `Worked_Before.color_dxcc` (new DXCC globally). -/
def color_dxcc : QColor × QColor := (color_black, color_pink)

/-- Color pair `Worked_Before.color_dxcc_band` (new DXCC on this band). -/
def color_dxcc_band : QColor × QColor := (color_black, color_pink1)

/-- Color pair `Worked_Before.color_new_call` (new callsign globally). -/
def color_new_call : QColor × QColor := (color_black, color_cyan)

/-- Color pair `Worked_Before.color_new_call_band` (new callsign on this
band). -/
def color_new_call_band : QColor × QColor := (color_black, color_cyan1)

/-- State of a `Worked_Before` instance as `lookup_color` consumes it:
the per-band callsign tables (`band_info`), the per-band entity tables
(`dxcc_info`) — both partial maps, a missing key raising `KeyError` when
indexed — and the fuzzy prefix match over the external DXCC list
(`fuzzy_match_dxcc_code`, list form), which yields the candidate entity
codes for a call. -/
structure Worked_Before where
  band_info : String → Option WBF
  dxcc_info : String → Option WBF
  fuzzy : String → List String

/-- Method `Worked_Before.lookup_color_new_call`: look the call up in the
"ALL" callsign table and pick new-call-on-band versus new-call-globally. -/
def Worked_Before.lookup_color_new_call (w : Worked_Before) (call : String) :
    Except PyErr (QColor × QColor) :=
  match w.band_info "ALL" with
  | none => Except.error PyErr.keyError
  | some wall =>
      if truthy (wall.lookup call) then Except.ok color_new_call_band
      else Except.ok color_new_call

/-- Method `Worked_Before.lookup_color`: the five-way classification of a
`(band, call)` pair.  The `r2` and `r3` loops AND the lookups of every
candidate entity code; their first iteration indexes `dxcc_info ['ALL']`
respectively `dxcc_info [band]`, raising `KeyError` when the table is
missing. -/
def Worked_Before.lookup_color (w : Worked_Before) (band call : String) :
    Except PyErr (QColor × QColor) :=
  match w.band_info band with
  | none => Except.ok color_dxcc
  | some wb =>
      if truthy (wb.lookup call) then Except.ok color_wbf
      else
        let dxccs := w.fuzzy call
        if dxccs.isEmpty then Except.ok color_dxcc
        else
          match w.dxcc_info "ALL" with
          | none => Except.error PyErr.keyError
          | some wall =>
              if dxccs.all (fun d => truthy (wall.lookup d)) then
                w.lookup_color_new_call call
              else
                match w.dxcc_info band with
                | none => Except.error PyErr.keyError
                | some wband =>
                    if dxccs.all (fun d => truthy (wband.lookup d)) then
                      Except.ok color_dxcc
                    else Except.ok color_dxcc_band

/-- Helper for `pytokens`: walk the characters, accumulating the current
token (reversed) and emitting it at each whitespace run. -/
def splitWsAux : List Char → List Char → List String
  | [], acc => if acc = [] then [] else [String.mk acc.reverse]
  | c :: cs, acc =>
      if c.isWhitespace then
        if acc = [] then splitWsAux cs []
        else String.mk acc.reverse :: splitWsAux cs []
      else splitWsAux cs (c :: acc)

/-- Python `str.split ()` with no argument: split on whitespace runs,
producing no empty tokens. -/
def pytokens (s : String) : List String := splitWsAux s.data []

/-- Python `token.startswith ('a')`. -/
def startsWithLetterA (t : String) : Bool :=
  match t.data with
  | [] => false
  | c :: _ => c = 'a'

/-- The marginal-decode strip of `parse_message`: drop the last token when
it starts with the letter a. -/
def stripA (l : List String) : List String :=
  if startsWithLetterA (l.getLastD "") then l.dropLast else l

/-- Python `call.lstrip ('<').rstrip ('>')`: remove all leading angle-open
and trailing angle-close characters. -/
def pyStrip (s : String) : String :=
  String.mk (((s.data.dropWhile (fun c => c = '<')).reverse.dropWhile
    (fun c => c = '>')).reverse)

/-- Core of `UDP_Connector.parse_message` after tokenisation and the
marginal-decode strip: the positional extraction over the token list;
indexing `l [0]` or `l [1]` on a too-short list raises `IndexError`. -/
def parseStripped : List String → Except PyErr (Option String)
  | [] => Except.error PyErr.indexError
  | t0 :: rest =>
      if t0 = "CQ" ∨ t0 = "QRZ" then
        if (t0 :: rest).length = 4 then
          match rest with
          | _ :: t2 :: _ => Except.ok (some t2)
          | _ => Except.error PyErr.indexError
        else
          match rest with
          | [] => Except.error PyErr.indexError
          | t1 :: _ => Except.ok (some t1)
      else if (t0 :: rest).length = 2 then
        match rest with
        | t1 :: _ => Except.ok (some t1)
        | [] => Except.error PyErr.indexError
      else if (t0 :: rest).length < 2 then Except.ok none
      else if (t0 :: rest).length = 3 then
        match rest with
        | t1 :: _ => Except.ok (some t1)
        | [] => Except.error PyErr.indexError
      else Except.ok none

/-- Method `UDP_Connector.parse_message`, assembled from the pieces above:
empty-message check, tokenisation (`l [-1]` on zero tokens raises
`IndexError`), strip, then the positional extraction. -/
def parse_message (message : String) : Except PyErr (Option String) :=
  if message = "" then Except.ok none
  else
    match pytokens message with
    | [] => Except.error PyErr.indexError
    | t :: ts => parseStripped (stripA (t :: ts))

/-- Mutable coloring state of a `UDP_Connector` (the fields set by
`__init__` that `handle` touches): the never-updated `heartbeat_seen`
flag, the per-callsign last-color table `color_by_call` and the pending
color queue `pending_color`, both insertion-ordered dictionaries. -/
structure ConnState where
  heartbeat_seen : Bool
  color_by_call : List (String × (QColor × QColor))
  pending_color : List (String × (QColor × QColor))
deriving DecidableEq, Repr

/-- A datagram sent out by the connector: a Heartbeat from `heartbeat ()`
or a Highlight_Call from `color ()` with the callsign and its
foreground/background colors. -/
inductive Sent where
  | heartbeat
  | highlight (call : String) (fg bg : QColor)
deriving DecidableEq, Repr

/-- A received telegram as `handle` inspects it (only the isinstance
checks and the fields that the handlers read matter): Heartbeat, Status
with its `decoding` flag, Decode with `is_new`, `off_air` and `message`,
or any other kind. -/
inductive HTel where
  | heartbeat
  | status (decoding : Bool)
  | decode (is_new : Bool) (off_air : Bool) (message : String)
  | other
deriving DecidableEq, Repr

/-- Python dict membership plus indexing on an insertion-ordered
association list. -/
def assocGet {α : Type} (l : List (String × α)) (k : String) : Option α :=
  (l.find? (fun p => p.1 = k)).map (fun p => p.2)

/-- Python dict assignment: replace in place when the key exists, append
otherwise. -/
def assocSet {α : Type} : List (String × α) → String → α → List (String × α)
  | [], k, v => [(k, v)]
  | (k1, v1) :: rest, k, v =>
      if k1 = k then (k, v) :: rest else (k1, v1) :: assocSet rest k v

/-- Method `UDP_Connector.update_color`: store the color for the call in
both the last-color table and the pending queue. -/
def update_color (st : ConnState) (call : String) (color : QColor × QColor) : ConnState :=
  { st with
      color_by_call := assocSet st.color_by_call call color
      pending_color := assocSet st.pending_color call color }

/-- Method `UDP_Connector.handle_decode`: skip off-air or not-new decodes,
extract the callsign (an extraction failure yields the empty call), strip
angle brackets, skip empty and "..." calls, classify via
`Worked_Before.lookup_color` and record a changed or first color.  The
method itself sends nothing — `update_color` only enqueues. -/
def handle_decode (w : Worked_Before) (band : String) (st : ConnState)
    (is_new off_air : Bool) (message : String) : Except PyErr ConnState :=
  if off_air || !is_new then Except.ok st
  else
    match parse_message message with
    | Except.error e => Except.error e
    | Except.ok c =>
      let call := pyStrip (c.getD "")
      if call = "" ∨ call = "..." then Except.ok st
      else
        match Worked_Before.lookup_color w band call with
        | Except.error e => Except.error e
        | Except.ok color =>
          match assocGet st.color_by_call call with
          | some old =>
              if old ≠ color then Except.ok (update_color st call color)
              else Except.ok st
          | none => Except.ok (update_color st call color)

/-- One Highlight_Call send per queue entry, in queue order, with the
stored foreground and background colors (the loop body of
`handle_status` calling `color ()`). -/
def mkHighlightList (pending : List (String × (QColor × QColor))) : List Sent :=
  pending.map (fun p => Sent.highlight p.1 p.2.1 p.2.2)

/-- Method `UDP_Connector.handle_status`: when the peer is not decoding,
send every pending color and clear the queue; otherwise do nothing. -/
def handle_status (st : ConnState) (decoding : Bool) : ConnState × List Sent :=
  if decoding = false then
    ({ st with pending_color := [] }, mkHighlightList st.pending_color)
  else (st, [])

/-- Method `UDP_Connector.handle`: send a heartbeat when `heartbeat_seen`
is false or the telegram is a Heartbeat (note no code path ever sets
`heartbeat_seen`), then dispatch Status and Decode telegrams to their
handlers.  Returns the new state and the telegrams sent, in send order. -/
def handle (w : Worked_Before) (band : String) (st : ConnState) (tel : HTel) :
    Except PyErr (ConnState × List Sent) :=
  let hb : List Sent :=
    if !st.heartbeat_seen || (tel matches HTel.heartbeat) then [Sent.heartbeat] else []
  match tel with
  | HTel.status d =>
      let (st2, out) := handle_status st d
      Except.ok (st2, hb ++ out)
  | HTel.decode n o m =>
      match handle_decode w band st n o m with
      | Except.error e => Except.error e
      | Except.ok st2 => Except.ok (st2, hb)
  | _ => Except.ok (st, hb)

/-- Two consecutive `handle` calls on the same connector, returning the
final state and the telegrams sent by each call. -/
def handle2 (w : Worked_Before) (band : String) (st : ConnState) (t1 t2 : HTel) :
    Except PyErr (ConnState × List Sent × List Sent) :=
  match handle w band st t1 with
  | Except.error e => Except.error e
  | Except.ok (st1, o1) =>
      match handle w band st1 t2 with
      | Except.error e => Except.error e
      | Except.ok (st2, o2) => Except.ok (st2, o1, o2)

/-- The bytes of the source's `clearmsg` doctest datagram (type 3, Clear,
id "WSJT-X - TS590S-klbg", absent window). -/
def clearBytes : List Nat :=
  [0xad, 0xbc, 0xcb, 0xda, 0, 0, 0, 3, 0, 0, 0, 3, 0, 0, 0, 20,
   87, 83, 74, 84, 45, 88, 32, 45, 32, 84, 83, 53, 57, 48, 83, 45, 107, 108, 98, 103]

/-- A Clear telegram whose optional `window` field is present (value 1),
as `WSJTX_Clear (window = 1)` would build it. -/
def clearWithWindow : CTel := CTel.known 3 magic 3 none [Val.voptq (some 1)]

/-- C1.  The claim asserts `decode (encode t) = t` for every constructible
instance of every registered kind.  The code cannot even encode a Clear
telegram with a present window — `Optional_Quint.serialize` reads the
`size` attribute that `__init__` never sets (`AttributeError`) — and
cannot decode one — `Optional_Quint.deserialize` on a non-empty buffer
refers to an undefined `self` (`NameError`); so round-trip identity fails
for the registered kind Clear. -/
theorem c1_optional_quint_breaks_roundtrip :
    as_bytes clearWithWindow = Except.error PyErr.attributeError ∧
    from_bytes (clearBytes ++ [1]) = Except.error PyErr.nameError := by
  constructor
  · decide
  · decide

/-- A datagram whose magic word is wrong (first four bytes zero). -/
def dgramBadMagic : List Nat := [0, 0, 0, 0, 0, 0, 0, 3, 0, 0, 0, 3, 0xff, 0xff, 0xff, 0xff]

/-- A datagram truncated inside the base header. -/
def dgramTruncated : List Nat := [0xad, 0xbc]

/-- A datagram with version_number 4, above the supported constant 3. -/
def dgramBadVersion : List Nat :=
  [0xad, 0xbc, 0xcb, 0xda, 0, 0, 0, 4, 0, 0, 0, 6, 0xff, 0xff, 0xff, 0xff]

/-- A well-formed Close datagram (type 6, null id). -/
def dgramClose : List Nat :=
  [0xad, 0xbc, 0xcb, 0xda, 0, 0, 0, 3, 0, 0, 0, 6, 0xff, 0xff, 0xff, 0xff]

/-- C2.  The claim asserts every per-datagram decode failure is caught at
the connector boundary and that the serving loop continues.  Neither
`UDP_Connector.receive` nor `main` has any exception handler, so the
assertion failures of `WSJTX_Telegram.__init__` (magic or version
mismatch) and the `struct.error` of a truncated buffer propagate and the
loop dies on the first bad datagram: a good datagram queued behind the bad
one is never processed, while the same good datagram alone is served
fine. -/
theorem c2_decode_failure_kills_loop :
    serveLoop [dgramBadMagic, dgramClose] = Except.error PyErr.assertionError ∧
    serveLoop [dgramClose] = Except.ok 1 ∧
    from_bytes dgramTruncated = Except.error PyErr.structError ∧
    from_bytes dgramBadVersion = Except.error PyErr.assertionError := by
  refine ⟨by decide, by decide, by decide, by decide⟩

/-- C3.  The claim states the intended invariant (offset present iff
timespec = 2).  The constructor's guard is inverted: timespec 2 *with* an
offset raises `ValueError ("Offset required when timespec=2")` — the very
case its message demands — while timespec 2 with *no* offset is accepted;
only the timespec ≠ 2 cases behave as claimed. -/
theorem c3_qdatetime_guard_inverted :
    QDateTime_init 0 0 2 (some 0) = Except.error PyErr.valueError ∧
    QDateTime_init 0 0 2 none = Except.ok (Val.vdt 0 0 2 none) ∧
    QDateTime_init 0 0 1 (some 0) = Except.error PyErr.assertionError ∧
    QDateTime_init 0 0 1 none = Except.ok (Val.vdt 0 0 1 none) := by
  refine ⟨by decide, by decide, by decide, by decide⟩

/-- A `Worked_Before` instance with no historical records and an empty
fuzzy match, as `Worked_Before ()` builds over an empty log. -/
def wbfEmpty : Worked_Before :=
  { band_info := fun b => if b = "ALL" then some ⟨false, fun _ => none⟩ else none
    dxcc_info := fun b => if b = "ALL" then some ⟨false, fun _ => none⟩ else none
    fuzzy := fun _ => [] }

/-- The coloring state of a freshly constructed connector
(`heartbeat_seen = False`, both tables empty). -/
def connInit : ConnState := ⟨false, [], []⟩

/-- C6.  The claim asserts a Heartbeat is sent exactly when none has been
sent this session or the received telegram is itself a Heartbeat.  The
flag `heartbeat_seen` is initialised False and no code path ever sets it,
so the guard `not self.heartbeat_seen` is permanently true: here a fresh
connector receives two Status telegrams (neither a Heartbeat) and *both*
handlings send a Heartbeat — the second send contradicts the claim, and
the state after each step is unchanged, so every later telegram keeps
triggering sends. -/
theorem c6_heartbeat_sent_on_every_telegram :
    handle2 wbfEmpty "40m" connInit (HTel.status true) (HTel.status true) =
      Except.ok (connInit, [Sent.heartbeat], [Sent.heartbeat]) := by
  decide

/-- C7.  Pending highlight colors are flushed exactly by a Status telegram
whose `decoding` flag is false: `handle_status` then emits one
Highlight_Call per queued callsign with its stored colors and empties the
queue, a Status with `decoding` true changes nothing and emits nothing,
and across the whole dispatcher a Highlight_Call can only be emitted while
handling a Status with `decoding` false (the heartbeat keepalive is the
only other kind of outbound telegram). -/
theorem c7_pending_flush (w : Worked_Before) (band : String) (st : ConnState) (tel : HTel) :
    handle_status st false = ({ st with pending_color := [] }, mkHighlightList st.pending_color) ∧
    handle_status st true = (st, []) ∧
    (∀ st2 out, handle w band st tel = Except.ok (st2, out) →
      ∀ c fg bg, Sent.highlight c fg bg ∈ out → tel = HTel.status false) := by
  refine ⟨rfl, rfl, ?_⟩
  intro st2 out h c fg bg hmem
  have hhb : ∀ cond : Bool, Sent.highlight c fg bg ∈ (if cond then [Sent.heartbeat] else []) →
      False := by
    intro cond hm
    cases cond <;> simp at hm
  cases tel with
  | heartbeat =>
      exfalso
      simp only [handle] at h
      cases h
      exact hhb _ hmem
  | status d =>
      cases d
      · rfl
      · exfalso
        simp only [handle, handle_status] at h
        cases h
        simp only [if_neg (by decide : ¬ (true = false)), List.append_nil] at hmem
        exact hhb _ hmem
  | decode n o m =>
      exfalso
      cases hd : handle_decode w band st n o m with
      | error e =>
          simp only [handle, hd] at h
          exact Except.noConfusion h
      | ok st3 =>
          simp only [handle, hd] at h
          cases h
          exact hhb _ hmem
  | other =>
      exfalso
      simp only [handle] at h
      cases h
      exact hhb _ hmem

/-- Witness for C7: a queue holding one pending entry is flushed into one
Highlight_Call with the stored colors and becomes empty. -/
theorem c7_pending_flush_witness :
    handle_status ⟨false, [("K1AB", (color_black, color_cyan))], [("K1AB", (color_black, color_cyan))]⟩
        false =
      (⟨false, [("K1AB", (color_black, color_cyan))], []⟩,
        [Sent.highlight "K1AB" color_black color_cyan]) := by
  have h := c7_pending_flush wbfEmpty "40m"
    ⟨false, [("K1AB", (color_black, color_cyan))], [("K1AB", (color_black, color_cyan))]⟩ HTel.other
  exact h.1

/-- C4.  When the band has records, the call is not an exact worked match
on the band, the fuzzy match yields at least one candidate entity and
every candidate is worked in the "ALL" entity table, `lookup_color`
delegates to `lookup_color_new_call`: new-callsign-on-this-band when the
call appears in the "ALL" callsign table (worked on some band before),
new-callsign-globally otherwise. -/
theorem c4_new_call_classification (w : Worked_Before) (band call : String)
    (wb wall ball : WBF)
    (h1 : w.band_info band = some wb)
    (h2 : truthy (wb.lookup call) = false)
    (h3 : w.fuzzy call ≠ [])
    (h4 : w.dxcc_info "ALL" = some wall)
    (h5 : ∀ d ∈ w.fuzzy call, truthy (wall.lookup d) = true)
    (h6 : w.band_info "ALL" = some ball) :
    Worked_Before.lookup_color w band call =
      Except.ok (if truthy (ball.lookup call) then color_new_call_band else color_new_call) := by
  have hall : (w.fuzzy call).all (fun d => truthy (wall.lookup d)) = true :=
    List.all_eq_true.mpr h5
  have hne : (w.fuzzy call).isEmpty = false := by
    cases hfz : w.fuzzy call with
    | nil => exact absurd hfz h3
    | cons d ds => rfl
  simp only [Worked_Before.lookup_color, h1, h2, Bool.false_eq_true, if_false, hne, h4, hall,
    if_true, Worked_Before.lookup_color_new_call, h6]
  cases truthy (ball.lookup call) <;> simp

/-- A `Worked_Before` state for the C4 witness: the call RK0 was worked
on some band (it is in the "ALL" callsign table) but not on 40m, and both
its fuzzy candidates 054 and 015 are in the "ALL" entity table. -/
def wC4 : Worked_Before :=
  { band_info := fun b =>
      if b = "40m" then some ⟨false, fun _ => none⟩
      else if b = "ALL" then some ⟨false, fun c => if c = "RK0" then some true else none⟩
      else none
    dxcc_info := fun b =>
      if b = "ALL" then
        some ⟨false, fun d => if d = "054" ∨ d = "015" then some true else none⟩
      else none
    fuzzy := fun c => if c = "RK0" then ["054", "015"] else [] }

/-- Witness for C4: in `wC4` the call RK0 (candidates 054 and 015, both in
the "ALL" entity table, call already worked on another band) classifies as
new-callsign-on-this-band. -/
theorem c4_new_call_classification_witness :
    Worked_Before.lookup_color wC4 "40m" "RK0" = Except.ok color_new_call_band := by
  have h := c4_new_call_classification wC4 "40m" "RK0"
    ⟨false, fun _ => none⟩
    ⟨false, fun d => if d = "054" ∨ d = "015" then some true else none⟩
    ⟨false, fun c => if c = "RK0" then some true else none⟩
    rfl (by decide) (by decide) rfl (by decide) rfl
  simpa using h

/-- A `Worked_Before` state reaching step 5 with no entity table for the
band: 40m has callsign records (so `band_info ['40m']` exists) but no
record on 40m ever resolved an entity code (so `dxcc_info` holds only
"ALL"), and the call X1X has one candidate entity 054 that is not in the
"ALL" entity table. -/
def wC5 : Worked_Before :=
  { band_info := fun b =>
      if b = "40m" ∨ b = "ALL" then some ⟨false, fun _ => none⟩ else none
    dxcc_info := fun b => if b = "ALL" then some ⟨false, fun _ => none⟩ else none
    fuzzy := fun c => if c = "X1X" then ["054"] else [] }

/-- Counterexample for C5: in `wC5` the pair (40m, X1X) satisfies every
hypothesis of the claim (band has records, call not worked on the band,
one candidate entity, candidate not in the "ALL" table) and no candidate
is worked on 40m, so the claim predicts new-DXCC-on-this-band — but the
`r3` loop indexes the missing `dxcc_info ['40m']` and raises `KeyError`. -/
theorem c5_missing_band_entity_table_counterexample :
    Worked_Before.lookup_color wC5 "40m" "X1X" = Except.error PyErr.keyError ∧
    Worked_Before.lookup_color wC5 "40m" "X1X" ≠ Except.ok color_dxcc_band := by
  refine ⟨by decide, by decide⟩

/-- C5 as amended: under the claim's hypotheses *and* the extra hypothesis
that the band has an entity table, step 5/6 behave as claimed — new-DXCC
when every candidate entity was worked on this band, otherwise the
distinct new-DXCC-on-this-band color. -/
theorem c5_banded_dxcc_classification (w : Worked_Before) (band call : String)
    (wb wall wband : WBF)
    (h1 : w.band_info band = some wb)
    (h2 : truthy (wb.lookup call) = false)
    (h3 : w.fuzzy call ≠ [])
    (h4 : w.dxcc_info "ALL" = some wall)
    (h5 : ¬ ∀ d ∈ w.fuzzy call, truthy (wall.lookup d) = true)
    (h6 : w.dxcc_info band = some wband) :
    Worked_Before.lookup_color w band call =
      Except.ok (if (w.fuzzy call).all (fun d => truthy (wband.lookup d)) then color_dxcc
        else color_dxcc_band) ∧
    color_dxcc ≠ color_dxcc_band := by
  have hall : (w.fuzzy call).all (fun d => truthy (wall.lookup d)) = false := by
    cases hv : (w.fuzzy call).all (fun d => truthy (wall.lookup d)) with
    | false => rfl
    | true => exact absurd (List.all_eq_true.mp hv) h5
  have hne : (w.fuzzy call).isEmpty = false := by
    cases hfz : w.fuzzy call with
    | nil => exact absurd hfz h3
    | cons d ds => rfl
  refine ⟨?_, by decide⟩
  simp only [Worked_Before.lookup_color, h1, h2, Bool.false_eq_true, if_false, hne, h4, hall,
    h6]
  cases (w.fuzzy call).all (fun d => truthy (wband.lookup d)) <;> simp

/-- A `Worked_Before` state for the C5 witness: like `wC5` but the band
entity table exists and already holds the only candidate 054. -/
def wC5w : Worked_Before :=
  { band_info := fun b =>
      if b = "40m" ∨ b = "ALL" then some ⟨false, fun _ => none⟩ else none
    dxcc_info := fun b =>
      if b = "ALL" then some ⟨false, fun _ => none⟩
      else if b = "40m" then some ⟨false, fun d => if d = "054" then some true else none⟩
      else none
    fuzzy := fun c => if c = "X1X" then ["054"] else [] }

/-- Witness for the amended C5: with the band entity table present and
every candidate worked on the band, the classification is the generic
new-DXCC color. -/
theorem c5_banded_dxcc_classification_witness :
    Worked_Before.lookup_color wC5w "40m" "X1X" = Except.ok color_dxcc := by
  have h := c5_banded_dxcc_classification wC5w "40m" "X1X"
    ⟨false, fun _ => none⟩
    ⟨false, fun _ => none⟩
    ⟨false, fun d => if d = "054" then some true else none⟩
    rfl (by decide) (by decide) rfl (by decide) rfl
  simpa using h.1

/-- The call the claim says the extraction returns, written from the
claim's words over the stripped token list (for comparison against
`parseStripped`): with a CQ/QRZ head, the third token of a 4-token
message, else the token after the head; two or three tokens give the
second token; any other count gives no call. -/
def claimedCall : List String → Option String
  | [] => none
  | [_] => none
  | t0 :: t1 :: rest =>
      if t0 = "CQ" ∨ t0 = "QRZ" then
        if rest.length = 2 then some (rest.headD "") else some t1
      else if rest.length ≤ 1 then some t1
      else none

/-- Counterexample for C8: the message " " (one space) is non-empty, so
the claim says extraction yields no call and never raises — but
`message.split ()` gives zero tokens and `l [-1]` raises `IndexError`;
likewise "a1" strips itself away and `l [0]` raises. -/
theorem c8_whitespace_message_counterexample :
    parse_message " " = Except.error PyErr.indexError ∧
    parse_message "a1" = Except.error PyErr.indexError := by
  refine ⟨by decide, by decide⟩

/-- C8 as amended: for every non-empty message that tokenises to at least
one token, still has a token after the marginal-decode strip, and — when
it starts with CQ/QRZ — has at least two tokens, the extraction returns
exactly the call the claim describes; outside that domain (whitespace-only
messages, messages reduced to zero tokens by the strip, a lone CQ/QRZ)
the code raises `IndexError` instead of returning no call. -/
theorem c8_positional_extraction (m : String)
    (h1 : m ≠ "")
    (h2 : pytokens m ≠ [])
    (h3 : stripA (pytokens m) ≠ [])
    (h4 : ((stripA (pytokens m)).headD "" = "CQ" ∨ (stripA (pytokens m)).headD "" = "QRZ") →
      2 ≤ (stripA (pytokens m)).length) :
    parse_message m = Except.ok (claimedCall (stripA (pytokens m))) := by
  have hcore : ∀ l : List String, l ≠ [] →
      ((l.headD "" = "CQ" ∨ l.headD "" = "QRZ") → 2 ≤ l.length) →
      parseStripped l = Except.ok (claimedCall l) := by
    intro l hne hcq
    match l with
    | [] => exact absurd rfl hne
    | [t0] =>
        by_cases hc : t0 = "CQ" ∨ t0 = "QRZ"
        · exact absurd (hcq (by simpa using hc)) (by simp)
        · simp [parseStripped, claimedCall, hc]
    | [t0, t1] =>
        by_cases hc : t0 = "CQ" ∨ t0 = "QRZ"
        · simp [parseStripped, claimedCall, hc]
        · simp [parseStripped, claimedCall, hc]
    | [t0, t1, t2] =>
        by_cases hc : t0 = "CQ" ∨ t0 = "QRZ"
        · simp [parseStripped, claimedCall, hc]
        · simp [parseStripped, claimedCall, hc]
    | [t0, t1, t2, t3] =>
        by_cases hc : t0 = "CQ" ∨ t0 = "QRZ"
        · simp [parseStripped, claimedCall, hc]
        · simp [parseStripped, claimedCall, hc]
    | t0 :: t1 :: t2 :: t3 :: t4 :: rest =>
        by_cases hc : t0 = "CQ" ∨ t0 = "QRZ"
        · simp [parseStripped, claimedCall, hc]
        · simp [parseStripped, claimedCall, hc]
  match hpt : pytokens m with
  | [] => exact absurd hpt h2
  | t :: ts =>
      rw [hpt] at h3 h4
      simp only [parse_message, if_neg h1, hpt]
      exact hcore (stripA (t :: ts)) h3 h4

/-- Witness for C8: a 4-token CQ message yields its third token. -/
theorem c8_positional_extraction_witness :
    parse_message "CQ DX W1AW FN31" = Except.ok (some "W1AW") := by
  have h := c8_positional_extraction "CQ DX W1AW FN31" (by decide) (by decide) (by decide)
    (by decide)
  simpa using h

/-- C9.  When the base fields of a datagram decode successfully, pass the
construction checks (correct magic, supported version) and carry a type
tag outside the registry, `from_bytes` returns the base-class (generic)
telegram holding exactly the four base fields — an unknown tag is not a
decode error. -/
theorem c9_unknown_type_generic (b rest : List Nat) (m v t : Nat) (id : Option (List Nat))
    (h1 : deserializeBase b = Except.ok ((m, v, t, id), rest))
    (h2 : m = magic) (h3 : v ≤ schema_version_number) (h4 : schemaOf t = none) :
    from_bytes b = Except.ok (CTel.generic m v t id) := by
  subst h2
  simp [from_bytes, h1, checkBaseAsserts, h3, h4, Except.bind]

/-- A datagram with valid header, version 2, unregistered type tag 99 and
id "AB". -/
def dgramType99 : List Nat :=
  [0xad, 0xbc, 0xcb, 0xda, 0, 0, 0, 2, 0, 0, 0, 99, 0, 0, 0, 2, 65, 66]

/-- Witness for C9: type tag 99 is unknown, so the fixed datagram decodes
to the generic telegram carrying its base fields. -/
theorem c9_unknown_type_generic_witness :
    from_bytes dgramType99 = Except.ok (CTel.generic magic 2 99 (some [65, 66])) := by
  have h := c9_unknown_type_generic dgramType99 [] magic 2 99 (some [65, 66])
    (by decide) rfl (by decide) rfl
  exact h

/-- C10.  A Decode telegram that is off-air, or not new, or whose message
yields no extractable callsign (extraction returns no call, or the
extracted call is empty or "..." once angle brackets are stripped) leaves
the connector's coloring state — both `color_by_call` and
`pending_color` — unchanged, and `handle_decode` performs no send at all
(it only ever enqueues through `update_color`). -/
theorem c10_decode_no_call_frame (w : Worked_Before) (band : String) (st : ConnState)
    (is_new off_air : Bool) (msg : String)
    (h : off_air = true ∨ is_new = false ∨ parse_message msg = Except.ok none ∨
      (∃ c, parse_message msg = Except.ok (some c) ∧ (pyStrip c = "" ∨ pyStrip c = "..."))) :
    handle_decode w band st is_new off_air msg = Except.ok st := by
  by_cases ho : off_air = true
  · simp [handle_decode, ho]
  · by_cases hn : is_new = false
    · simp [handle_decode, hn]
    · have ho' : off_air = false := by
        cases off_air
        · rfl
        · exact absurd rfl ho
      have hn' : is_new = true := by
        cases is_new
        · exact absurd rfl hn
        · rfl
      rcases h with h | h | h | h
      · exact absurd h ho
      · exact absurd h hn
      · simp [handle_decode, ho', hn', h, pyStrip]
      · rcases h with ⟨c, hp, hs⟩
        rcases hs with hs | hs <;>
          simp [handle_decode, ho', hn', hp, hs]

/-- Witness for C10: an off-air Decode leaves the fresh connector state
untouched. -/
theorem c10_decode_no_call_frame_witness :
    handle_decode wbfEmpty "40m" connInit true true "CQ K1AB FN42" = Except.ok connInit := by
  exact c10_decode_no_call_frame wbfEmpty "40m" connInit true true "CQ K1AB FN42"
    (Or.inl rfl)
